import Mathlib

/-!
Verification of the MCP-Chatbot backend (tool registry, dynamic dispatch and
chat orchestration) against its natural-language specification.

The Python sources embedded here are:
  backend/utils/tool_manager.py   (ToolManager: discovery, registry, invocation)
  backend/utils/ollama_client.py  (OllamaChatClient: chat orchestration)
  backend/main.py                 (websocket message handling)

Machine integers do not occur; parameter values are JSON values.  Fallible
Python code is embedded with Except/Option; the mutable registry is threaded
explicitly as state.
-/

/-- The apostrophe character as a string, used to reproduce message text. -/
def apos : String := String.singleton (Char.ofNat 39)

/-- ASCII lower-casing of one character, as Python str.lower acts on ASCII
identifiers (the only inputs discovery feeds it). -/
def charLower (c : Char) : Char :=
  if c.toNat ≥ 65 && c.toNat ≤ 90 then Char.ofNat (c.toNat + 32) else c

/-- Lower-case a string character-wise (Python str.lower on ASCII). -/
def lowerStr (s : String) : String := (s.toList.map charLower).asString

/-- Does pat occur as a contiguous run inside s (character lists)? -/
def containsAux (pat : List Char) : List Char → Bool
  | [] => pat.isEmpty
  | c :: cs => pat.isPrefixOf (c :: cs) || containsAux pat cs

/-- Substring containment, Python `pat in s`. -/
def strContains (s pat : String) : Bool := containsAux pat.toList s.toList

/-- Whitespace recognized by Python str.strip and by the JSON lexer. -/
def isWsChar (c : Char) : Bool := c = ' ' || c = '\n' || c = '\t' || c = '\r'

/-- Drop leading whitespace from a character list. -/
def skipWs : List Char → List Char
  | [] => []
  | c :: cs => if isWsChar c then skipWs cs else c :: cs

/-- Python str.strip: remove leading and trailing whitespace. -/
def trimChars (s : String) : String :=
  ((skipWs ((skipWs s.toList).reverse)).reverse).asString

/-- Python sep.join(xs). -/
def joinSep (sep : String) : List String → String
  | [] => ""
  | [x] => x
  | x :: xs => x ++ sep ++ joinSep sep xs

/-- Python repr of a string: surrounded by single quotes. -/
def pyQuote (s : String) : String := apos ++ s ++ apos

/-- Python repr of a list of strings, as it appears inside error messages. -/
def pyStrList (xs : List String) : String :=
  "[" ++ joinSep ", " (xs.map pyQuote) ++ "]"

/-- JSON values, the untyped parameter universe of the tool protocol. -/
inductive Json where
  | null
  | bool (b : Bool)
  | num (n : Int)
  | str (s : String)
  | arr (elems : List Json)
  | obj (fields : List (String × Json))

/-- Python exception values, distinguished only as far as the embedded code
branches on them: execute_tool catches TypeError specially. -/
inductive PyExn where
  | typeError (msg : String)
  | valueError (msg : String)
  | keyError (msg : String)
  | otherError (msg : String)
deriving DecidableEq, Repr

/-- Parse the body of a JSON string literal after the opening quote; the
escape-free subset suffices for every directive this development evaluates. -/
def parseStrBody : List Char → Option (List Char × List Char)
  | [] => none
  | c :: cs =>
    if c = '"' then some ([], cs)
    else if c = '\\' then none
    else (parseStrBody cs).map (fun p => (c :: p.fst, p.snd))

/-- Numeric value of a digit run. -/
def digitsVal (ds : List Char) : Nat :=
  ds.foldl (fun a c => a * 10 + (c.toNat - 48)) 0

/-- Parse a nonempty digit run. -/
def parseNatNum (s : List Char) : Option (Nat × List Char) :=
  let p := s.span Char.isDigit
  if p.fst.isEmpty then none else some (digitsVal p.fst, p.snd)

/-- Parse a JSON integer (optional leading minus; the fraction/exponent forms
never occur in the directives this development evaluates). -/
def parseIntNum : List Char → Option (Int × List Char)
  | '-' :: rest => (parseNatNum rest).map (fun p => (-(p.fst : Int), p.snd))
  | s => (parseNatNum s).map (fun p => ((p.fst : Int), p.snd))

mutual

/-- Recursive-descent JSON value parser with explicit fuel, embedding the
behavior of Python json.loads on the directive grammar. -/
def parseVal : Nat → List Char → Option (Json × List Char)
  | 0, _ => none
  | fuel + 1, s =>
    match skipWs s with
    | [] => none
    | c :: cs =>
      if c = '"' then
        (parseStrBody cs).map (fun p => (Json.str p.fst.asString, p.snd))
      else if c = 't' then
        if cs.take 3 = ['r', 'u', 'e'] then some (Json.bool true, cs.drop 3) else none
      else if c = 'f' then
        if cs.take 4 = ['a', 'l', 's', 'e'] then some (Json.bool false, cs.drop 4) else none
      else if c = 'n' then
        if cs.take 3 = ['u', 'l', 'l'] then some (Json.null, cs.drop 3) else none
      else if c = '\x7b' then
        match skipWs cs with
        | d :: ds => if d = '\x7d' then some (Json.obj [], ds)
                     else (parseFields fuel (d :: ds)).map (fun p => (Json.obj p.fst, p.snd))
        | [] => none
      else if c = '[' then
        match skipWs cs with
        | d :: ds => if d = ']' then some (Json.arr [], ds)
                     else (parseElems fuel (d :: ds)).map (fun p => (Json.arr p.fst, p.snd))
        | [] => none
      else
        (parseIntNum (c :: cs)).map (fun p => (Json.num p.fst, p.snd))

/-- Parse one or more comma-separated key/value pairs then the closing brace. -/
def parseFields : Nat → List Char → Option (List (String × Json) × List Char)
  | 0, _ => none
  | fuel + 1, s =>
    match skipWs s with
    | '"' :: cs =>
      match parseStrBody cs with
      | none => none
      | some (k, r1) =>
        match skipWs r1 with
        | ':' :: r2 =>
          match parseVal fuel r2 with
          | none => none
          | some (v, r3) =>
            match skipWs r3 with
            | ',' :: r4 =>
              (parseFields fuel r4).map (fun p => ((k.asString, v) :: p.fst, p.snd))
            | d :: r4 =>
              if d = '\x7d' then some ([(k.asString, v)], r4) else none
            | [] => none
        | _ => none
    | _ => none

/-- Parse one or more comma-separated array elements then the closing bracket. -/
def parseElems : Nat → List Char → Option (List Json × List Char)
  | 0, _ => none
  | fuel + 1, s =>
    match parseVal fuel s with
    | none => none
    | some (v, r1) =>
      match skipWs r1 with
      | ',' :: r2 => (parseElems fuel r2).map (fun p => (v :: p.fst, p.snd))
      | ']' :: r2 => some ([v], r2)
      | _ => none

end

/-- Python json.loads: parse a complete JSON document, rejecting trailing
garbage; failure is the except-json.JSONDecodeError path. -/
def jsonParse (s : String) : Option Json :=
  match parseVal (s.toList.length + 1) s.toList with
  | some (j, rest) => if (skipWs rest).isEmpty then some j else none
  | none => none

/-!
 ## Tool registry and invocation — backend/utils/tool_manager.py
-/

/-- One declared parameter of a Python callable: its name and whether the
signature gives it a default value.  (The repository tools declare plain
positional-or-keyword parameters only; none takes *args or **kwargs.) -/
structure PyParam where
  name : String
  hasDefault : Bool
deriving DecidableEq, Repr

/-- A loaded callable: declared parameters plus a body.  The body abstracts
the Python function object; its outcome is a value or a raised exception. -/
structure PyFunc where
  params : List PyParam
  body : List (String × Json) → Except PyExn Json

/-- The registry state self.loaded_tools: tool name to its function_objects
mapping (function name to callable).  Insertion order preserved. -/
abbrev Registry := List (String × List (String × PyFunc))

/-- Python keyword-argument binding for f(**parameters): succeeds iff every
supplied key names a declared parameter and every parameter without a
default is supplied.  Failure raises TypeError before the body runs. -/
def bindOk (ps : List PyParam) (kwargs : List (String × Json)) : Bool :=
  kwargs.all (fun kv => ps.any (fun p => p.name = kv.fst)) &&
  ps.all (fun p => p.hasDefault || kwargs.any (fun kv => kv.fst = p.name))

/-- Calling a Python function with keyword arguments: bind, then run the
body.  A binding failure is a TypeError and the body is never entered. -/
def callPyFunc (f : PyFunc) (kwargs : List (String × Json)) : Except PyExn Json :=
  if bindOk f.params kwargs then f.body kwargs
  else Except.error (PyExn.typeError "unexpected or missing keyword argument")

/-- The error outcomes of ToolManager.execute_tool, kept structured: the
first two are the ValueErrors raised for bad names, paramMismatch is the
ValueError raised from the except-TypeError branch, and reraised is the
bare re-raise in the final except branch. -/
inductive InvokeError where
  | unknownTool (tool : String) (available : List String)
  | unknownFunction (tool fn : String) (available : List String)
  | paramMismatch (fn : String) (expected received : List String)
  | reraised (e : PyExn)
deriving Repr

/-- ToolManager.execute_tool: look up the tool, then the function, then call
it.  TypeError (from binding or from the body — the except clause cannot
tell them apart) becomes the parameter-mismatch ValueError carrying the
declared and the received key lists; any other exception is re-raised.
The registry is threaded through and returned to record that the method
never writes self.loaded_tools. -/
def execute_tool (reg : Registry) (tool fn : String) (params : List (String × Json)) :
    Except InvokeError Json × Registry :=
  match List.lookup tool reg with
  | none => (Except.error (InvokeError.unknownTool tool (reg.map Prod.fst)), reg)
  | some m =>
    match List.lookup fn m with
    | none => (Except.error (InvokeError.unknownFunction tool fn (m.map Prod.fst)), reg)
    | some f =>
      match callPyFunc f params with
      | Except.ok v => (Except.ok v, reg)
      | Except.error (PyExn.typeError _) =>
          (Except.error (InvokeError.paramMismatch fn (f.params.map PyParam.name)
            (params.map Prod.fst)), reg)
      | Except.error e => (Except.error (InvokeError.reraised e), reg)

/-- Resolve a (tool, function) pair in the registry, the composition of the
two lookups execute_tool performs. -/
def lookupFn (reg : Registry) (tool fn : String) : Option PyFunc :=
  (List.lookup tool reg).bind (fun m => List.lookup fn m)

/-- ToolManager.get_all_tools: tool name to list of function names. -/
def get_all_tools (reg : Registry) : List (String × List String) :=
  reg.map (fun p => (p.fst, p.snd.map Prod.fst))

/-- str(e) of the ValueError raised by execute_tool, reproduced from the
French f-strings of the source. -/
def invokeErrMsg : InvokeError → String
  | InvokeError.unknownTool t avail =>
      "Outil " ++ pyQuote t ++ " non trouvé. Outils disponibles: " ++ pyStrList avail
  | InvokeError.unknownFunction t f avail =>
      "Fonction " ++ pyQuote f ++ " non trouvée dans l" ++ apos ++ "outil " ++ pyQuote t
        ++ ". Fonctions disponibles: " ++ pyStrList avail
  | InvokeError.paramMismatch f exp rec =>
      "Paramètres incorrects pour " ++ f ++ ". Attendu: " ++ pyStrList exp
        ++ ", reçu: " ++ pyStrList rec
  | InvokeError.reraised e =>
      match e with
      | PyExn.typeError m => m
      | PyExn.valueError m => m
      | PyExn.keyError m => pyQuote m
      | PyExn.otherError m => m

/-!
 ## Callable discovery — ToolManager._find_tool_functions
-/

/-- One member of a loaded module as inspect.getmembers reports it: its
name, whether it is a function, and whether it carries the _mcp_tool
marker attribute. -/
structure PyMember where
  name : String
  isFunction : Bool
  hasMcpMarker : Bool
deriving DecidableEq, Repr

/-- The shared loop shape of the four discovery strategies: walk the member
list and collect those satisfying the strategy predicate, in order. -/
def selectBy (p : PyMember → Bool) (ms : List PyMember) : List PyMember :=
  ms.foldl (fun acc m => if p m then acc ++ [m] else acc) []

/-- Strategy 1 predicate: a function carrying the _mcp_tool attribute. -/
def isMcpToolFn (m : PyMember) : Bool := m.isFunction && m.hasMcpMarker

/-- Strategy 2 predicate: a function whose lower-cased name has the
substring tool. -/
def hasToolInName (m : PyMember) : Bool :=
  m.isFunction && strContains (lowerStr m.name) "tool"

/-- The fixed domain keyword list of strategy 3. -/
def domainKeywords : List String :=
  ["weather", "temperature", "rain", "forecast", "sunny", "air_quality", "sunrise", "sunset"]

/-- Strategy 3 predicate: a function whose lower-cased name holds one of
the domain keywords. -/
def hasDomainKeyword (m : PyMember) : Bool :=
  m.isFunction && domainKeywords.any (fun k => strContains (lowerStr m.name) k)

/-- The reserved names excluded by strategy 4. -/
def reservedNames : List String := ["main", "run", "start", "stop", "init", "setup"]

/-- Does the name start with an underscore? -/
def startsUnderscore (s : String) : Bool :=
  match s.toList with
  | c :: _ => c = '_'
  | [] => false

/-- Strategy 4 predicate: a public function whose name is not reserved. -/
def isPublicNonReserved (m : PyMember) : Bool :=
  m.isFunction && !startsUnderscore m.name && !(reservedNames.contains m.name)

/-- ToolManager._find_tool_functions: four member scans in order, each run
only while the accumulated mapping is still empty. -/
def find_tool_functions (ms : List PyMember) : List PyMember :=
  let s1 := selectBy isMcpToolFn ms
  if !s1.isEmpty then s1
  else
    let s2 := selectBy hasToolInName ms
    if !s2.isEmpty then s2
    else
      let s3 := selectBy hasDomainKeyword ms
      if !s3.isEmpty then s3
      else selectBy isPublicNonReserved ms

/-- The four filters of the specification, as pure List.filter passes. -/
def rankedFilters (ms : List PyMember) : List (List PyMember) :=
  [ms.filter isMcpToolFn, ms.filter hasToolInName,
   ms.filter hasDomainKeyword, ms.filter isPublicNonReserved]

/-- First non-empty element of a list of candidate lists, else empty: the
ordered-fallback policy the specification describes. -/
def firstNonEmpty : List (List PyMember) → List PyMember
  | [] => []
  | xs :: rest => if xs.isEmpty then firstNonEmpty rest else xs

/-- Discovery-level registry: tool name to selected members, the view of
self.loaded_tools that _load_single_tool populates. -/
abbrev DiscRegistry := List (String × List PyMember)

/-- ToolManager._load_single_tool, module-analysis tail: when discovery
selects no function the method returns without touching the registry;
otherwise it stores the selection under the tool name. -/
def load_single_tool (reg : DiscRegistry) (toolName : String) (ms : List PyMember) :
    DiscRegistry :=
  if (find_tool_functions ms).isEmpty then reg
  else reg ++ [(toolName, find_tool_functions ms)]

/-!
 ## Chat orchestration — backend/utils/ollama_client.py
-/

/-- One conversation turn, the role/content dictionaries of the source. -/
structure Msg where
  role : String
  content : String
deriving DecidableEq, Repr

/-- Outcome of one HTTP round trip to the model backend, before the client
code touches it: the successful content, an httpx.HTTPError, or any other
exception. -/
inductive BackendResult where
  | ok (content : String)
  | httpError (msg : String)
  | otherError (msg : String)
deriving DecidableEq, Repr

/-- OllamaChatClient._call_ollama: both except clauses swallow the failure
and hand back an error-message string, so the method is total and its
caller cannot tell a failure from model text. -/
def call_ollama : BackendResult → String
  | BackendResult.ok c => c
  | BackendResult.httpError m => "Erreur de connexion avec Ollama: " ++ m
  | BackendResult.otherError m => "Erreur lors de l" ++ apos ++ "appel à Ollama: " ++ m

/-- OllamaChatClient._create_system_prompt: the tool description block
followed by the fixed instruction template (f-string of the source, its
doubled braces rendered as single braces). -/
def create_system_prompt (tools : List (String × List String)) : Msg :=
  let desc := tools.foldl
    (fun acc p => acc ++ "- " ++ p.fst ++ ": " ++ joinSep ", " p.snd ++ "\n")
    "Outils disponibles:\n"
  { role := "system"
    content :=
      "Tu es un assistant intelligent qui peut utiliser des outils.\n\n"
      ++ desc
      ++ "\nPour utiliser un outil, écris exactement:\n<tool_call>\n"
      ++ "\x7b\"tool\": \"nom_outil\", \"function\": \"fonction\", \"parameters\": "
      ++ "\x7b\"param\": \"valeur\"\x7d\x7d\n</tool_call>\n\nExemples:\n"
      ++ "- Pour la météo: <tool_call>\x7b\"tool\": \"weather_tool\", \"function\": "
      ++ "\"get_current_weather\", \"parameters\": \x7b\"location\": \"Paris\"\x7d\x7d</tool_call>\n"
      ++ "- Pour calculer: <tool_call>\x7b\"tool\": \"calculator\", \"function\": \"add\", "
      ++ "\"parameters\": \x7b\"a\": 5, \"b\": 3\x7d\x7d</tool_call>\n\n"
      ++ "Utilise les outils quand nécessaire, puis réponds naturellement à l"
      ++ apos ++ "utilisateur." }

/-- OllamaChatClient._has_tool_call: both delimiters occur somewhere in the
response text. -/
def has_tool_call (response : String) : Bool :=
  strContains response "<tool_call>" && strContains response "</tool_call>"

/-- Split a character list at the first occurrence of pat: the part before
it and the part after it, or none when pat does not occur. -/
def splitFirst (pat : List Char) : List Char → Option (List Char × List Char)
  | [] => none
  | c :: cs =>
    if pat.isPrefixOf (c :: cs) then some ([], (c :: cs).drop pat.length)
    else
      match splitFirst pat cs with
      | some p => some (c :: p.fst, p.snd)
      | none => none

/-- The delimiters of the tool-call directive wire format. -/
def startPat : List Char := "<tool_call>".toList

/-- Closing delimiter. -/
def endPat : List Char := "</tool_call>".toList

/-- The segments re.findall yields for the lazy DOTALL pattern
<tool_call>(.*?)</tool_call>: repeatedly take the text between the next
start marker and the first end marker after it. -/
def segsAux : Nat → List Char → List String
  | 0, _ => []
  | fuel + 1, s =>
    match splitFirst startPat s with
    | none => []
    | some q =>
      match splitFirst endPat q.snd with
      | none => []
      | some r => r.fst.asString :: segsAux fuel r.snd

/-- OllamaChatClient._extract_tool_calls: each delimited segment is stripped
and json-decoded; segments that fail to decode are logged and skipped
(the continue branch), decoded ones are collected in order. -/
def extract_tool_calls (response : String) : List Json :=
  (segsAux (response.toList.length + 1) response.toList).filterMap
    (fun seg => jsonParse (trimChars seg))

/-- The field accesses _handle_tool_call performs on the decoded directive:
tool_call["tool"], tool_call["function"] and tool_call.get("parameters", {}),
then the **-expansion of the parameters inside execute_tool.  Directives
that are not objects, lack the two name keys, carry non-string names or a
non-object parameters value all raise (KeyError / TypeError / never-matching
lookup) and funnel into the same catch-all branch; they are returned as
none here. -/
def dispatchOf (tc : Json) : Option (String × String × List (String × Json)) :=
  match tc with
  | Json.obj fs =>
    match List.lookup "tool" fs, List.lookup "function" fs with
    | some (Json.str t), some (Json.str f) =>
      match (List.lookup "parameters" fs).getD (Json.obj []) with
      | Json.obj ps => some (t, f, ps)
      | _ => none
    | _, _ => none
  | _ => none

/-- str(result) for the tool-result message.  The repository tools return
strings; the remaining renderings are only sketched and never reached by
the theorems below. -/
def pyStr : Json → String
  | Json.str s => s
  | Json.num n => toString n
  | Json.bool true => "True"
  | Json.bool false => "False"
  | Json.null => "None"
  | Json.arr _ => "[...]"
  | Json.obj _ => "\x7b...\x7d"

/-- The prefix of the apology reply the catch-all branch of
_handle_tool_call produces. -/
def apology (m : String) : String :=
  "Désolé, il y a eu une erreur avec l" ++ apos ++ "outil: " ++ m

/-- Everything one orchestrated chat turn produces: the returned reply, the
final value of the caller-owned message list (mutated in place by the
source), the message lists sent to the model in order, and the
execute_tool dispatches performed. -/
structure ChatResult where
  reply : String
  callerHistory : List Msg
  sent : List (List Msg)
  dispatches : List (String × String × List (String × Json))

/-- The assistant turn _handle_tool_call builds around the tool result. -/
def toolResultMsg (t f : String) (v : Json) : Msg :=
  { role := "assistant"
    content := "J" ++ apos ++ "ai utilisé l" ++ apos ++ "outil " ++ t ++ "." ++ f
      ++ " et voici le résultat:\n" ++ pyStr v
      ++ "\n\nLaisse-moi te donner une réponse claire:" }

/-- OllamaChatClient._handle_tool_call.  The first model call (over full)
already happened and produced response.  When no segment decoded, the raw
response is returned.  Otherwise only the first decoded directive is
dispatched; a failing invocation is caught and stringified into the
apology reply with no further model call; a successful one appends the
tool-result turn and returns the second model response verbatim.  The
module-level tool_manager of main.py is passed in as reg (the
if-not-tool_manager guard of the source is dead: the global is always an
instance). -/
def handle_tool_call (reg : Registry) (backend : Nat → BackendResult)
    (full : List Msg) (response : String) (caller : List Msg) : ChatResult :=
  match extract_tool_calls response with
  | [] => { reply := response, callerHistory := caller, sent := [full], dispatches := [] }
  | tc :: _ =>
    match dispatchOf tc with
    | none =>
        { reply := apology (pyQuote "tool"), callerHistory := caller,
          sent := [full], dispatches := [] }
    | some (t, f, ps) =>
      match (execute_tool reg t f ps).fst with
      | Except.error e =>
          { reply := apology (invokeErrMsg e), callerHistory := caller,
            sent := [full], dispatches := [(t, f, ps)] }
      | Except.ok v =>
          { reply := call_ollama (backend 1)
            callerHistory := caller
            sent := [full, full ++ [toolResultMsg t f v]]
            dispatches := [(t, f, ps)] }

/-- The message-preparation step of OllamaChatClient._process_chat: with
tools available, merge the tool system prompt into an existing leading
system turn — mutating the caller-owned list, whose final value is the
first component — or prepend a fresh system turn, leaving the caller list
untouched.  The second component is full_messages, the list sent to the
model. -/
def prep_messages (tools : List (String × List String)) (messages : List Msg) :
    List Msg × List Msg :=
  if tools.isEmpty then (messages, messages)
  else
    match messages with
    | m0 :: rest =>
      if m0.role = "system" then
        let m0x : Msg :=
          ⟨m0.role, (create_system_prompt tools).content ++ "\n\n" ++ m0.content⟩
        (m0x :: rest, m0x :: rest)
      else (messages, create_system_prompt tools :: messages)
    | [] => (messages, [create_system_prompt tools])

/-- OllamaChatClient._process_chat (the body of chat): prepare the message
lists, call the model once, and hand over to _handle_tool_call only when
tools are available and the response carries both delimiters.  The model
backend is an oracle indexed by call number; _call_ollama being total
(every transport failure becomes a string) makes this faithful. -/
def process_chat (reg : Registry) (backend : Nat → BackendResult)
    (messages : List Msg) (tools : List (String × List String)) : ChatResult :=
  if !tools.isEmpty && has_tool_call (call_ollama (backend 0)) then
    handle_tool_call reg backend (prep_messages tools messages).snd
      (call_ollama (backend 0)) (prep_messages tools messages).fst
  else
    { reply := call_ollama (backend 0)
      callerHistory := (prep_messages tools messages).fst
      sent := [(prep_messages tools messages).snd]
      dispatches := [] }

/-!
 ## Websocket message handling — backend/main.py
-/

/-- One parsed inbound websocket message, after json.loads and the
message.get("type") dispatch of the source.  other covers every type
string the endpoint does not recognise. -/
inductive InMsg where
  | executeTool (toolServer fnName : String) (params : List (String × Json))
  | listTools
  | chat (prompt : Option String)
  | reset
  | other (t : String)

/-- One outbound websocket reply, as json-serialised by the source. -/
inductive OutMsg where
  | executionResult (success : Bool) (result : Option Json) (error : Option String)
      (toolServer fnName : Option String)
  | toolsList (tools : List (String × List String))
  | chatResponse (success : Bool) (response : Option String) (error : Option String)

/-- The per-message body of websocket_endpoint: given the registry, the
model oracle and the connection-local chat_history, produce the replies
sent for one inbound message and the new chat_history.  The chat branch
calls ollama_bot.chat(chat_history) with no available_tools argument, and
that call never raises (every failure inside the client is converted to a
string), so its except clause is dead and the reply always carries
success true.  A falsy prompt (absent or empty) produces no reply at all,
and no branch exists for the reset type. -/
def websocket_handle_message (reg : Registry) (backend : Nat → BackendResult)
    (hist : List Msg) (m : InMsg) : List OutMsg × List Msg :=
  match m with
  | InMsg.executeTool t f ps =>
    match (execute_tool reg t f ps).fst with
    | Except.ok v =>
        ([OutMsg.executionResult true (some v) none (some t) (some f)], hist)
    | Except.error e =>
        ([OutMsg.executionResult false none (some (invokeErrMsg e)) (some t) (some f)], hist)
  | InMsg.listTools => ([OutMsg.toolsList (get_all_tools reg)], hist)
  | InMsg.chat p =>
    match p with
    | some prompt =>
      if prompt = "" then ([], hist)
      else
        ([OutMsg.chatResponse true
            (some (process_chat reg backend
              (hist ++ [{ role := "user", content := prompt }]) []).reply) none],
         (hist ++ [{ role := "user", content := prompt }]) ++
           [{ role := "assistant",
              content := (process_chat reg backend
                (hist ++ [{ role := "user", content := prompt }]) []).reply }])
    | none => ([], hist)
  | InMsg.reset => ([], hist)
  | InMsg.other _ => ([], hist)

/-!
 ## General lemmas about the embedded operations
-/

/-- execute_tool never writes the registry: the returned state is the input
state on every control path. -/
theorem execute_tool_snd (reg : Registry) (t fn : String) (ps : List (String × Json)) :
    (execute_tool reg t fn ps).snd = reg := by
  unfold execute_tool
  repeat first | rfl | split

/-- Keyword binding fails exactly when a supplied key names no declared
parameter or a declared parameter without a default is not supplied. -/
theorem bindOk_false_iff (P : List PyParam) (ps : List (String × Json)) :
    bindOk P ps = false ↔
      (∃ kv ∈ ps, ∀ p ∈ P, p.name ≠ kv.fst) ∨
      (∃ p ∈ P, p.hasDefault = false ∧ ∀ kv ∈ ps, kv.fst ≠ p.name) := by
  unfold bindOk
  rw [Bool.and_eq_false_iff, List.all_eq_false, List.all_eq_false]
  apply or_congr
  · apply exists_congr; intro kv
    apply and_congr_right; intro _
    simp [List.any_eq_true]
  · apply exists_congr; intro p
    apply and_congr_right; intro _
    simp only [List.any_eq_true, Bool.or_eq_true, not_or, Bool.not_eq_true, not_exists,
      decide_eq_true_eq]
    apply and_congr_right; intro _
    constructor
    · intro h kv hkv hne
      exact h kv ⟨hkv, hne⟩
    · intro h kv hkv
      exact h kv hkv.1 hkv.2

/-- The strategy loop collects exactly the members satisfying the strategy
predicate, in order. -/
theorem selectBy_eq_filter (p : PyMember → Bool) (ms : List PyMember) :
    selectBy p ms = ms.filter p := by
  suffices h : ∀ acc : List PyMember,
      ms.foldl (fun a m => if p m then a ++ [m] else a) acc = acc ++ ms.filter p by
    simpa using h []
  induction ms with
  | nil => intro acc; simp
  | cons m ms ih =>
    intro acc
    simp only [List.foldl_cons, List.filter_cons]
    cases hp : p m <;> simp [hp, ih]

/-- _handle_tool_call leaves the caller-owned message list exactly as it
received it, on every control path. -/
theorem handle_tool_call_caller (reg : Registry) (backend : Nat → BackendResult)
    (full : List Msg) (response : String) (caller : List Msg) :
    (handle_tool_call reg backend full response caller).callerHistory = caller := by
  unfold handle_tool_call
  repeat first | rfl | split

/-- _process_chat returns as the caller-owned list whatever the preparation
step made of it, on every control path. -/
theorem process_chat_caller (reg : Registry) (backend : Nat → BackendResult)
    (messages : List Msg) (tools : List (String × List String)) :
    (process_chat reg backend messages tools).callerHistory =
      (prep_messages tools messages).fst := by
  unfold process_chat
  split
  · exact handle_tool_call_caller ..
  · rfl


/-- Branch lemma: no decoded directive means the raw response is the reply
and nothing is dispatched. -/
theorem handle_tool_call_empty (reg : Registry) (backend : Nat → BackendResult)
    (full : List Msg) (response : String) (caller : List Msg)
    (h : extract_tool_calls response = []) :
    handle_tool_call reg backend full response caller =
      ⟨response, caller, [full], []⟩ := by
  unfold handle_tool_call
  rw [h]

/-- Branch lemma: a first decoded directive from which no dispatch can be
built raises inside the try block and yields the apology reply. -/
theorem handle_tool_call_nodisp (reg : Registry) (backend : Nat → BackendResult)
    (full : List Msg) (response : String) (caller : List Msg)
    (tc : Json) (rest : List Json)
    (h : extract_tool_calls response = tc :: rest) (h2 : dispatchOf tc = none) :
    handle_tool_call reg backend full response caller =
      ⟨apology (pyQuote "tool"), caller, [full], []⟩ := by
  unfold handle_tool_call
  rw [h]
  simp only [h2]

/-- Branch lemma: a failing invocation of the first decoded directive is
caught and stringified into the apology reply; no second model call. -/
theorem handle_tool_call_error (reg : Registry) (backend : Nat → BackendResult)
    (full : List Msg) (response : String) (caller : List Msg)
    (tc : Json) (rest : List Json) (t f : String) (ps : List (String × Json))
    (e : InvokeError)
    (h : extract_tool_calls response = tc :: rest)
    (h2 : dispatchOf tc = some (t, f, ps))
    (h3 : (execute_tool reg t f ps).fst = Except.error e) :
    handle_tool_call reg backend full response caller =
      ⟨apology (invokeErrMsg e), caller, [full], [(t, f, ps)]⟩ := by
  unfold handle_tool_call
  rw [h]
  simp only [h2, h3]

/-- Branch lemma: a successful invocation appends the tool-result turn and
returns the second model response verbatim. -/
theorem handle_tool_call_ok (reg : Registry) (backend : Nat → BackendResult)
    (full : List Msg) (response : String) (caller : List Msg)
    (tc : Json) (rest : List Json) (t f : String) (ps : List (String × Json))
    (v : Json)
    (h : extract_tool_calls response = tc :: rest)
    (h2 : dispatchOf tc = some (t, f, ps))
    (h3 : (execute_tool reg t f ps).fst = Except.ok v) :
    handle_tool_call reg backend full response caller =
      ⟨call_ollama (backend 1), caller,
       [full, full ++ [toolResultMsg t f v]], [(t, f, ps)]⟩ := by
  unfold handle_tool_call
  rw [h]
  simp only [h2, h3]

/-- Branch lemma: without tools, or without both delimiters in the model
response, the response is the final reply and nothing is dispatched. -/
theorem process_chat_direct (reg : Registry) (backend : Nat → BackendResult)
    (messages : List Msg) (tools : List (String × List String))
    (h : (!tools.isEmpty && has_tool_call (call_ollama (backend 0))) = false) :
    process_chat reg backend messages tools =
      ⟨call_ollama (backend 0), (prep_messages tools messages).fst,
       [(prep_messages tools messages).snd], []⟩ := by
  unfold process_chat
  rw [h]
  rfl

/-- Branch lemma: with tools and both delimiters present, the turn is
handed to _handle_tool_call. -/
theorem process_chat_toolpath (reg : Registry) (backend : Nat → BackendResult)
    (messages : List Msg) (tools : List (String × List String))
    (h : (!tools.isEmpty && has_tool_call (call_ollama (backend 0))) = true) :
    process_chat reg backend messages tools =
      handle_tool_call reg backend (prep_messages tools messages).snd
        (call_ollama (backend 0)) (prep_messages tools messages).fst := by
  unfold process_chat
  rw [h]
  rfl

/-- Branch lemma: the preparation step merges the tool prompt into an
existing leading system turn, in place. -/
theorem prep_messages_system (tools : List (String × List String))
    (m0 : Msg) (rest : List Msg)
    (ht : tools.isEmpty = false) (hr : m0.role = "system") :
    prep_messages tools (m0 :: rest) =
      (⟨m0.role, (create_system_prompt tools).content ++ "\n\n" ++ m0.content⟩ :: rest,
       ⟨m0.role, (create_system_prompt tools).content ++ "\n\n" ++ m0.content⟩ :: rest) := by
  simp [prep_messages, ht, hr]

/-!
 ## Concrete fixtures

The calc tool realises the specification scenario of a synchronous
two-parameter add(a, b); the weather tool mirrors the signatures of
backend/tools/weather.py (will_it_rain(location, days=1) has a defaulted
second parameter, get_temperature(location) does not).  The weather bodies
perform network I/O in the source — an external collaborator — and are
modelled as returning a fixed successful string, which is all the dispatch
claims observe of them.
-/

/-- Body of calc.add. -/
def add_body : List (String × Json) → Except PyExn Json := fun kw =>
  match List.lookup "a" kw, List.lookup "b" kw with
  | some (Json.num x), some (Json.num y) => Except.ok (Json.num (x + y))
  | _, _ => Except.error (PyExn.typeError "unsupported operand type(s) for +")

/-- calc.add with parameters a and b, neither defaulted. -/
def add_fn : PyFunc := ⟨[⟨"a", false⟩, ⟨"b", false⟩], add_body⟩

/-- A registry holding the calc tool. -/
def calcReg : Registry := [("calc", [("add", add_fn)])]

/-- weather.will_it_rain(location, days=1), body abstracted. -/
def will_it_rain_fn : PyFunc :=
  ⟨[⟨"location", false⟩, ⟨"days", true⟩],
   fun _ => Except.ok (Json.str "No rain expected in Paris, France today")⟩

/-- weather.get_temperature(location), body abstracted. -/
def get_temperature_fn : PyFunc :=
  ⟨[⟨"location", false⟩],
   fun _ => Except.ok (Json.str "Temperature in Paris, France: 20.0 C (68.0 F)")⟩

/-- A registry holding the weather tool. -/
def weatherReg : Registry :=
  [("weather", [("will_it_rain", will_it_rain_fn), ("get_temperature", get_temperature_fn)])]

/-- A zero-parameter callable whose body raises ValueError boom. -/
def boom_fn : PyFunc := ⟨[], fun _ => Except.error (PyExn.valueError "boom")⟩

/-- A registry holding the failing demo tool. -/
def boomReg : Registry := [("demo", [("boom", boom_fn)])]

/-- A model oracle that always answers with fixed text. -/
def bkPlain : Nat → BackendResult := fun _ => BackendResult.ok "Bonjour"

/-!
 ## Claim C1 — parameter-set mismatch handling of invoke
-/

/-- Claim C1 as stated is false: execute_tool performs no key-set check of
its own, it calls the function and relies on Python binding, so a missing
key whose parameter carries a default does not fail.  Concretely,
will_it_rain declares parameters location and days, the supplied mapping
has key set only location, yet the invocation succeeds and the body runs
instead of failing with ParameterMismatch. -/
theorem C1_counterexample :
    will_it_rain_fn.params.map PyParam.name = ["location", "days"] ∧
    ([("location", Json.str "Paris")].map
      (Prod.fst (α := String) (β := Json))) = ["location"] ∧
    (execute_tool weatherReg "weather" "will_it_rain"
        [("location", Json.str "Paris")]).fst =
      Except.ok (Json.str "No rain expected in Paris, France today") :=
  ⟨rfl, rfl, rfl⟩

/-- Claim C1 (amended): the invocation fails with ParameterMismatch — whose
payload carries the declared and the received key lists — exactly in the
cases where Python keyword binding fails: some received key names no
declared parameter, or some declared parameter without a default is not
supplied.  In those cases the callable body is never entered (the binding
failure is the same for every possible body).  A missing key whose
parameter has a default does not fail. -/
theorem C1_theorem (reg : Registry) (t fn : String) (ps : List (String × Json))
    (f : PyFunc) (h1 : lookupFn reg t fn = some f)
    (hbad : (∃ kv ∈ ps, ∀ p ∈ f.params, p.name ≠ kv.fst) ∨
            (∃ p ∈ f.params, p.hasDefault = false ∧ ∀ kv ∈ ps, kv.fst ≠ p.name)) :
    (execute_tool reg t fn ps).fst =
      Except.error (InvokeError.paramMismatch fn (f.params.map PyParam.name)
        (ps.map Prod.fst)) ∧
    ∀ b, callPyFunc ⟨f.params, b⟩ ps =
      Except.error (PyExn.typeError "unexpected or missing keyword argument") := by
  have hb : bindOk f.params ps = false := (bindOk_false_iff f.params ps).2 hbad
  have hcall : ∀ b, callPyFunc ⟨f.params, b⟩ ps =
      Except.error (PyExn.typeError "unexpected or missing keyword argument") := by
    intro b
    unfold callPyFunc
    simp [hb]
  refine ⟨?_, hcall⟩
  have hc2 : callPyFunc f ps =
      Except.error (PyExn.typeError "unexpected or missing keyword argument") :=
    hcall f.body
  unfold lookupFn at h1
  cases hl : List.lookup t reg with
  | none => rw [hl] at h1; cases h1
  | some m =>
    rw [hl] at h1
    have h1x : List.lookup fn m = some f := h1
    simp only [execute_tool, hl, h1x, hc2]

/-- Witness for C1 at a concrete input: calling will_it_rain with the single
unknown-free key days while omitting the non-defaulted location fails with
the mismatch error carrying both key lists. -/
theorem C1_witness :
    lookupFn weatherReg "weather" "will_it_rain" = some will_it_rain_fn ∧
    (∃ p ∈ will_it_rain_fn.params, p.hasDefault = false ∧
      ∀ kv ∈ ([("days", Json.num 2)] : List (String × Json)), kv.fst ≠ p.name) ∧
    (execute_tool weatherReg "weather" "will_it_rain" [("days", Json.num 2)]).fst =
      Except.error (InvokeError.paramMismatch "will_it_rain"
        ["location", "days"] ["days"]) := by
  refine ⟨rfl, ?_, ?_⟩
  · exact ⟨⟨"location", false⟩, by simp [will_it_rain_fn], rfl, by simp⟩
  · exact (C1_theorem weatherReg "weather" "will_it_rain" [("days", Json.num 2)]
      will_it_rain_fn rfl
      (Or.inr ⟨⟨"location", false⟩, by simp [will_it_rain_fn], rfl, by simp⟩)).1

/-!
 ## Claim C4 — exceptions raised by the callable body
-/

/-- Claim C4 as stated is false: execute_tool does not wrap a body exception
into a structured ExecutionError carrying the tool and function names —
its final except branch logs and re-raises the exception unchanged.
Concretely, the boom body raises ValueError boom and the invocation
surfaces exactly that re-raised exception. -/
theorem C4_counterexample :
    callPyFunc boom_fn [] = Except.error (PyExn.valueError "boom") ∧
    (execute_tool boomReg "demo" "boom" []).fst =
      Except.error (InvokeError.reraised (PyExn.valueError "boom")) :=
  ⟨rfl, rfl⟩

/-- Claim C4 (amended): a body exception is caught but not wrapped with the
tool and function identity: an exception other than TypeError is
re-raised unchanged, while a TypeError raised by the body is misreported
as the parameter-mismatch ValueError (the except TypeError clause cannot
distinguish binding failures from body failures).  The part of the claim
about registry integrity is right: the module map is unchanged by the
failed invocation. -/
theorem C4_theorem (reg : Registry) (t fn : String) (ps : List (String × Json))
    (f : PyFunc) (e : PyExn)
    (h1 : lookupFn reg t fn = some f)
    (h2 : callPyFunc f ps = Except.error e) :
    ((∀ m, e ≠ PyExn.typeError m) →
      (execute_tool reg t fn ps).fst = Except.error (InvokeError.reraised e)) ∧
    (∀ m, e = PyExn.typeError m →
      (execute_tool reg t fn ps).fst =
        Except.error (InvokeError.paramMismatch fn (f.params.map PyParam.name)
          (ps.map Prod.fst))) ∧
    (execute_tool reg t fn ps).snd = reg := by
  unfold lookupFn at h1
  refine ⟨?_, ?_, execute_tool_snd reg t fn ps⟩
  · intro hne
    cases hl : List.lookup t reg with
    | none => rw [hl] at h1; cases h1
    | some m =>
      rw [hl] at h1
      have h1x : List.lookup fn m = some f := h1
      cases e with
      | typeError msg => exact absurd rfl (hne msg)
      | valueError msg => simp only [execute_tool, hl, h1x, h2]
      | keyError msg => simp only [execute_tool, hl, h1x, h2]
      | otherError msg => simp only [execute_tool, hl, h1x, h2]
  · intro msg hm
    subst hm
    cases hl : List.lookup t reg with
    | none => rw [hl] at h1; cases h1
    | some m =>
      rw [hl] at h1
      have h1x : List.lookup fn m = some f := h1
      simp only [execute_tool, hl, h1x, h2]

/-- Witness for C4 at a concrete input: boom raises ValueError boom, which
is not a TypeError, so the theorem yields the re-raised outcome and the
unchanged registry. -/
theorem C4_witness :
    lookupFn boomReg "demo" "boom" = some boom_fn ∧
    callPyFunc boom_fn [] = Except.error (PyExn.valueError "boom") ∧
    (execute_tool boomReg "demo" "boom" []).fst =
      Except.error (InvokeError.reraised (PyExn.valueError "boom")) ∧
    (execute_tool boomReg "demo" "boom" []).snd = boomReg := by
  refine ⟨rfl, rfl, ?_, ?_⟩
  · exact (C4_theorem boomReg "demo" "boom" [] boom_fn (PyExn.valueError "boom")
      rfl rfl).1 (fun m h => by cases h)
  · exact (C4_theorem boomReg "demo" "boom" [] boom_fn (PyExn.valueError "boom")
      rfl rfl).2.2

/-!
 ## Claim C9 — unknown tool and unknown function errors
-/

/-- Claim C9: an invocation naming a tool absent from the registry always
fails with the unknown-tool ValueError carrying the list of loaded tool
names, whatever the function name and parameters are, because the tool
lookup is the first check execute_tool performs; a known tool with an
absent function name fails with the unknown-function ValueError carrying
the function names of that tool. -/
theorem C9_theorem (reg : Registry) (t fn : String) (ps : List (String × Json)) :
    (List.lookup t reg = none →
      (execute_tool reg t fn ps).fst =
        Except.error (InvokeError.unknownTool t (reg.map Prod.fst))) ∧
    (∀ m, List.lookup t reg = some m → List.lookup fn m = none →
      (execute_tool reg t fn ps).fst =
        Except.error (InvokeError.unknownFunction t fn (m.map Prod.fst))) := by
  constructor
  · intro h
    simp only [execute_tool, h]
  · intro m h1 h2
    simp only [execute_tool, h1, h2]

/-- Witness for C9 at concrete inputs: the calc registry rejects the absent
tool name nope with the unknown-tool error listing calc, and rejects the
absent function name mul of calc with the unknown-function error listing
add. -/
theorem C9_witness :
    List.lookup "nope" calcReg = none ∧
    (execute_tool calcReg "nope" "add" [("a", Json.num 1)]).fst =
      Except.error (InvokeError.unknownTool "nope" ["calc"]) ∧
    List.lookup "calc" calcReg = some [("add", add_fn)] ∧
    List.lookup "mul" [("add", add_fn)] = none ∧
    (execute_tool calcReg "calc" "mul" [("a", Json.num 1)]).fst =
      Except.error (InvokeError.unknownFunction "calc" "mul" ["add"]) := by
  refine ⟨rfl, ?_, rfl, rfl, ?_⟩
  · exact (C9_theorem calcReg "nope" "add" [("a", Json.num 1)]).1 rfl
  · exact (C9_theorem calcReg "calc" "mul" [("a", Json.num 1)]).2
      [("add", add_fn)] rfl rfl

/-!
 ## Claim C7 — ranked-fallback callable discovery
-/

/-- Claim C7: the selected callables are exactly the first non-empty result
of the four ordered pure filters — marker attribute, then the substring
tool, then the fixed domain keywords, then public non-reserved names —
and when all four filters are empty the module is not loaded: the
registry is left untouched. -/
theorem C7_theorem (ms : List PyMember) (reg : DiscRegistry) (toolName : String) :
    find_tool_functions ms = firstNonEmpty (rankedFilters ms) ∧
    (find_tool_functions ms = [] → load_single_tool reg toolName ms = reg) := by
  constructor
  · unfold find_tool_functions rankedFilters
    simp only [selectBy_eq_filter, firstNonEmpty]
    cases h1 : (List.filter isMcpToolFn ms).isEmpty <;>
      cases h2 : (List.filter hasToolInName ms).isEmpty <;>
        cases h3 : (List.filter hasDomainKeyword ms).isEmpty <;>
          cases h4 : (List.filter isPublicNonReserved ms).isEmpty <;>
            simp_all [List.isEmpty_iff]
  · intro h
    simp [load_single_tool, h]

/-- A module exposing only the reserved name main and the private name
_helper: no strategy matches it. -/
def msBare : List PyMember := [⟨"main", true, false⟩, ⟨"_helper", true, false⟩]

/-- A weather-like module with one keyword-matching function. -/
def msTemp : List PyMember := [⟨"get_temperature", true, false⟩, ⟨"main", true, false⟩]

/-- A discovery-level registry already holding the calc tool. -/
def discCalc : DiscRegistry := [("calc", [⟨"add", true, false⟩])]

/-- Witness for C7 at a concrete input: a module exposing only the reserved
name main and the private name _helper matches none of the four
strategies, so discovery selects nothing and loading registers nothing;
and on a weather-like module the code agrees with the ranked-filter
policy. -/
theorem C7_witness :
    find_tool_functions msBare = [] ∧
    load_single_tool discCalc "demo" msBare = discCalc ∧
    find_tool_functions msTemp = firstNonEmpty (rankedFilters msTemp) := by
  refine ⟨rfl, ?_, ?_⟩
  · exact (C7_theorem msBare discCalc "demo").2 rfl
  · exact (C7_theorem msTemp discCalc "weather").1

/-!
 ## Claim C10 — in-place mutation of a leading system turn
-/

/-- Claim C10: when tools are available and the caller-supplied message list
begins with a system-role turn, the chat call mutates that caller-owned
list in place: afterwards its first turn carries the generated tool
prompt, a blank line, then the original content, the remaining turns are
untouched, and the list no longer equals what the caller passed in. -/
theorem C10_theorem (reg : Registry) (backend : Nat → BackendResult)
    (tools : List (String × List String)) (m0 : Msg) (rest : List Msg)
    (ht : tools ≠ []) (hr : m0.role = "system") :
    (process_chat reg backend (m0 :: rest) tools).callerHistory =
      ⟨m0.role, (create_system_prompt tools).content ++ "\n\n" ++ m0.content⟩ :: rest ∧
    (process_chat reg backend (m0 :: rest) tools).callerHistory ≠ m0 :: rest := by
  have hte : tools.isEmpty = false := by
    cases tools with
    | nil => exact absurd rfl ht
    | cons a l => rfl
  have hch : (process_chat reg backend (m0 :: rest) tools).callerHistory =
      ⟨m0.role, (create_system_prompt tools).content ++ "\n\n" ++ m0.content⟩ :: rest := by
    rw [process_chat_caller, prep_messages_system tools m0 rest hte hr]
  refine ⟨hch, ?_⟩
  rw [hch]
  intro heq
  have h0 : (⟨m0.role, (create_system_prompt tools).content ++ "\n\n" ++ m0.content⟩ :
      Msg) = m0 := ((List.cons.injEq _ _ _ _).mp heq).1
  have hc : (create_system_prompt tools).content ++ "\n\n" ++ m0.content = m0.content :=
    congrArg Msg.content h0
  have hlen := congrArg String.length hc
  rw [String.length_append, String.length_append] at hlen
  have h2 : ("\n\n" : String).length = 2 := rfl
  omega

/-- Witness for C10 at a concrete input: a history starting with a short
system turn, chatted with the calc tool available, comes back with its
first turn rewritten to the tool prompt followed by a blank line and the
original text. -/
theorem C10_witness :
    ([("calc", ["add"])] : List (String × List String)) ≠ [] ∧
    (⟨"system", "Sois bref."⟩ : Msg).role = "system" ∧
    (process_chat calcReg bkPlain [⟨"system", "Sois bref."⟩, ⟨"user", "salut"⟩]
        [("calc", ["add"])]).callerHistory =
      ⟨"system", (create_system_prompt [("calc", ["add"])]).content ++ "\n\n"
        ++ "Sois bref."⟩ :: [⟨"user", "salut"⟩] ∧
    (process_chat calcReg bkPlain [⟨"system", "Sois bref."⟩, ⟨"user", "salut"⟩]
        [("calc", ["add"])]).callerHistory ≠
      [⟨"system", "Sois bref."⟩, ⟨"user", "salut"⟩] := by
  have h := C10_theorem calcReg bkPlain [("calc", ["add"])] ⟨"system", "Sois bref."⟩
    [⟨"user", "salut"⟩] (by simp) rfl
  exact ⟨by simp, rfl, h.1, h.2⟩

/-!
 ## Orchestrator fixtures: concrete model responses and their extraction
-/

/-- A directive segment calling calc.add with a=1, b=2. -/
def tc1Seg : String := "\x7b\"tool\": \"calc\", \"function\": \"add\", \"parameters\": \x7b\"a\": 1, \"b\": 2\x7d\x7d"

/-- A directive segment calling calc.add with a=3, b=4. -/
def tc2Seg : String := "\x7b\"tool\": \"calc\", \"function\": \"add\", \"parameters\": \x7b\"a\": 3, \"b\": 4\x7d\x7d"

/-- A model response carrying two well-formed directives. -/
def resp8 : String := "<tool_call>" ++ tc1Seg ++ "</tool_call><tool_call>" ++ tc2Seg ++ "</tool_call>"

/-- The decoded first directive of resp8. -/
def tc1Obj : Json := Json.obj [("tool", Json.str "calc"), ("function", Json.str "add"),
  ("parameters", Json.obj [("a", Json.num 1), ("b", Json.num 2)])]

/-- The decoded second directive of resp8. -/
def tc2Obj : Json := Json.obj [("tool", Json.str "calc"), ("function", Json.str "add"),
  ("parameters", Json.obj [("a", Json.num 3), ("b", Json.num 4)])]

/-- Extraction of resp8 finds both directives, in order. -/
theorem resp8_extract : extract_tool_calls resp8 = [tc1Obj, tc2Obj] := by
  show (segsAux (resp8.toList.length + 1) resp8.toList).filterMap _ = _
  rw [show resp8.toList.length + 1 = 181 from by rfl,
      show segsAux 181 resp8.toList = [tc1Seg, tc2Seg] from by rfl]
  rfl

/-- resp8 carries both delimiters. -/
theorem resp8_has : has_tool_call resp8 = true := by rfl

/-- A model response carrying one directive naming the absent tool nope. -/
def respC2 : String := "<tool_call>\x7b\"tool\": \"nope\", \"function\": \"add\", \"parameters\": \x7b\x7d\x7d</tool_call>"

/-- The decoded directive of respC2. -/
def tcNObj : Json := Json.obj [("tool", Json.str "nope"), ("function", Json.str "add"),
  ("parameters", Json.obj [])]

/-- Extraction of respC2 finds the single directive. -/
theorem respC2_extract : extract_tool_calls respC2 = [tcNObj] := by
  show (segsAux (respC2.toList.length + 1) respC2.toList).filterMap _ = _
  rw [show respC2.toList.length + 1 = 77 from by rfl,
      show segsAux 77 respC2.toList =
        ["\x7b\"tool\": \"nope\", \"function\": \"add\", \"parameters\": \x7b\x7d\x7d"] from by rfl]
  rfl

/-- respC2 carries both delimiters. -/
theorem respC2_has : has_tool_call respC2 = true := by rfl

/-- A model response whose first delimited segment is not JSON and whose
second is a well-formed calc.add directive with a=5, b=3 (the
specification scenario input). -/
def resp6 : String := "<tool_call>oops</tool_call><tool_call>\x7b\"tool\": \"calc\", \"function\": \"add\", \"parameters\": \x7b\"a\": 5, \"b\": 3\x7d\x7d</tool_call>"

/-- The decoded surviving directive of resp6. -/
def tc6Obj : Json := Json.obj [("tool", Json.str "calc"), ("function", Json.str "add"),
  ("parameters", Json.obj [("a", Json.num 5), ("b", Json.num 3)])]

/-- Extraction of resp6 skips the undecodable first segment and keeps the
second. -/
theorem resp6_extract : extract_tool_calls resp6 = [tc6Obj] := by
  show (segsAux (resp6.toList.length + 1) resp6.toList).filterMap _ = _
  rw [show resp6.toList.length + 1 = 118 from by rfl,
      show segsAux 118 resp6.toList =
        ["oops", "\x7b\"tool\": \"calc\", \"function\": \"add\", \"parameters\": \x7b\"a\": 5, \"b\": 3\x7d\x7d"]
        from by rfl]
  rfl

/-- resp6 carries both delimiters. -/
theorem resp6_has : has_tool_call resp6 = true := by rfl

/-- A model response whose only delimited segment is not JSON. -/
def respW6 : String := "<tool_call>pas du json</tool_call>"

/-- Extraction of respW6 decodes nothing. -/
theorem respW6_extract : extract_tool_calls respW6 = [] := by
  show (segsAux (respW6.toList.length + 1) respW6.toList).filterMap _ = _
  rw [show respW6.toList.length + 1 = 35 from by rfl,
      show segsAux 35 respW6.toList = ["pas du json"] from by rfl]
  rfl

/-!
 ## Claim C8 — at most one tool hop per turn
-/

/-- Claim C8: one orchestrated turn dispatches at most one tool invocation
and sends at most two model calls; every dispatch comes from the first
decoded directive of the first model response; and whenever the second
model call happens its response is returned verbatim as the reply — it is
never re-scanned for further directives. -/
theorem C8_theorem (reg : Registry) (backend : Nat → BackendResult)
    (messages : List Msg) (tools : List (String × List String)) :
    (process_chat reg backend messages tools).dispatches.length ≤ 1 ∧
    (process_chat reg backend messages tools).sent.length ≤ 2 ∧
    (∀ d ∈ (process_chat reg backend messages tools).dispatches,
      ∃ tc rest, extract_tool_calls (call_ollama (backend 0)) = tc :: rest ∧
        dispatchOf tc = some d) ∧
    ((process_chat reg backend messages tools).sent.length = 2 →
      (process_chat reg backend messages tools).reply = call_ollama (backend 1)) := by
  by_cases hc : (!tools.isEmpty && has_tool_call (call_ollama (backend 0))) = true
  · rw [process_chat_toolpath reg backend messages tools hc]
    cases hext : extract_tool_calls (call_ollama (backend 0)) with
    | nil =>
      rw [handle_tool_call_empty _ _ _ _ _ hext]
      refine ⟨by simp, by simp, by simp, ?_⟩
      intro h
      simp at h
    | cons tc rest =>
      cases hd : dispatchOf tc with
      | none =>
        rw [handle_tool_call_nodisp _ _ _ _ _ tc rest hext hd]
        refine ⟨by simp, by simp, by simp, ?_⟩
        intro h
        simp at h
      | some dsp =>
        obtain ⟨t, f, ps⟩ := dsp
        cases hx : (execute_tool reg t f ps).fst with
        | error e =>
          rw [handle_tool_call_error _ _ _ _ _ tc rest t f ps e hext hd hx]
          refine ⟨by simp, by simp, ?_, ?_⟩
          · intro d hdm
            simp only [List.mem_singleton] at hdm
            exact ⟨tc, rest, rfl, by rw [hdm]; exact hd⟩
          · intro h
            simp at h
        | ok v =>
          rw [handle_tool_call_ok _ _ _ _ _ tc rest t f ps v hext hd hx]
          refine ⟨by simp, by simp, ?_, fun _ => rfl⟩
          intro d hdm
          simp only [List.mem_singleton] at hdm
          exact ⟨tc, rest, rfl, by rw [hdm]; exact hd⟩
  · rw [process_chat_direct reg backend messages tools (by simpa using hc)]
    refine ⟨by simp, by simp, by simp, ?_⟩
    intro h
    simp at h

/-- The model oracle for the C8 witness: the first call yields the
two-directive response, the second a reply that itself contains a
directive (which must not be re-scanned). -/
def bk8 : Nat → BackendResult := fun n =>
  if n = 0 then BackendResult.ok resp8
  else BackendResult.ok "fini <tool_call>jamais relu</tool_call>"

/-- Witness for C8 at a concrete input: with two well-formed directives in
the first response, exactly one dispatch happens — built from the first
directive — two model calls are sent, and the second response is the
reply verbatim although it contains directive markers itself. -/
theorem C8_witness :
    (process_chat calcReg bk8 [⟨"user", "calcule"⟩] [("calc", ["add"])]).dispatches =
      [("calc", "add", [("a", Json.num 1), ("b", Json.num 2)])] ∧
    (process_chat calcReg bk8 [⟨"user", "calcule"⟩] [("calc", ["add"])]).sent.length = 2 ∧
    (process_chat calcReg bk8 [⟨"user", "calcule"⟩] [("calc", ["add"])]).reply =
      call_ollama (bk8 1) ∧
    (∃ tc rest, extract_tool_calls (call_ollama (bk8 0)) = tc :: rest ∧
      dispatchOf tc = some ("calc", "add", [("a", Json.num 1), ("b", Json.num 2)])) := by
  have hrw : process_chat calcReg bk8 [⟨"user", "calcule"⟩] [("calc", ["add"])] =
      handle_tool_call calcReg bk8
        (prep_messages [("calc", ["add"])] [⟨"user", "calcule"⟩]).snd
        (call_ollama (bk8 0))
        (prep_messages [("calc", ["add"])] [⟨"user", "calcule"⟩]).fst := by
    apply process_chat_toolpath
    rw [show call_ollama (bk8 0) = resp8 from rfl, resp8_has]
    rfl
  have hok : handle_tool_call calcReg bk8
      (prep_messages [("calc", ["add"])] [⟨"user", "calcule"⟩]).snd
      (call_ollama (bk8 0))
      (prep_messages [("calc", ["add"])] [⟨"user", "calcule"⟩]).fst =
      ⟨call_ollama (bk8 1),
       (prep_messages [("calc", ["add"])] [⟨"user", "calcule"⟩]).fst,
       [(prep_messages [("calc", ["add"])] [⟨"user", "calcule"⟩]).snd,
        (prep_messages [("calc", ["add"])] [⟨"user", "calcule"⟩]).snd ++
          [toolResultMsg "calc" "add" (Json.num 3)]],
       [("calc", "add", [("a", Json.num 1), ("b", Json.num 2)])]⟩ := by
    apply handle_tool_call_ok _ _ _ _ _ tc1Obj [tc2Obj]
    · rw [show call_ollama (bk8 0) = resp8 from rfl]
      exact resp8_extract
    · rfl
    · rfl
  have hd : (process_chat calcReg bk8 [⟨"user", "calcule"⟩] [("calc", ["add"])]).dispatches =
      [("calc", "add", [("a", Json.num 1), ("b", Json.num 2)])] := by
    rw [hrw, hok]
  have hs : (process_chat calcReg bk8 [⟨"user", "calcule"⟩] [("calc", ["add"])]).sent.length = 2 := by
    rw [hrw, hok]
    rfl
  refine ⟨hd, hs, ?_, ?_⟩
  · exact (C8_theorem calcReg bk8 [⟨"user", "calcule"⟩] [("calc", ["add"])]).2.2.2 hs
  · exact (C8_theorem calcReg bk8 [⟨"user", "calcule"⟩] [("calc", ["add"])]).2.2.1
      ("calc", "add", [("a", Json.num 1), ("b", Json.num 2)])
      (by rw [hd]; exact List.mem_singleton_self _)

/-!
 ## Claim C2 — invocation errors during an orchestrated turn
-/

/-- Claim C2 as stated is false: when dispatching the parsed call fails, the
except branch of _handle_tool_call returns the stringified error directly
as the reply — it does not inject an assistant-role diagnostic turn and
does not perform a second model call.  Concretely, a directive naming the
absent tool nope yields the apology reply after exactly one message list
has been sent to the model. -/
theorem C2_counterexample :
    (process_chat calcReg (fun _ => BackendResult.ok respC2)
        [⟨"user", "utilise nope"⟩] [("calc", ["add"])]).sent.length = 1 ∧
    (process_chat calcReg (fun _ => BackendResult.ok respC2)
        [⟨"user", "utilise nope"⟩] [("calc", ["add"])]).reply =
      apology (invokeErrMsg (InvokeError.unknownTool "nope" ["calc"])) := by
  have hrw : process_chat calcReg (fun _ => BackendResult.ok respC2)
      [⟨"user", "utilise nope"⟩] [("calc", ["add"])] =
      handle_tool_call calcReg (fun _ => BackendResult.ok respC2)
        (prep_messages [("calc", ["add"])] [⟨"user", "utilise nope"⟩]).snd
        (call_ollama ((fun _ => BackendResult.ok respC2) 0))
        (prep_messages [("calc", ["add"])] [⟨"user", "utilise nope"⟩]).fst := by
    apply process_chat_toolpath
    rw [show call_ollama ((fun _ => BackendResult.ok respC2) 0) = respC2 from rfl,
      respC2_has]
    rfl
  have herr : handle_tool_call calcReg (fun _ => BackendResult.ok respC2)
      (prep_messages [("calc", ["add"])] [⟨"user", "utilise nope"⟩]).snd
      (call_ollama ((fun _ => BackendResult.ok respC2) 0))
      (prep_messages [("calc", ["add"])] [⟨"user", "utilise nope"⟩]).fst =
      ⟨apology (invokeErrMsg (InvokeError.unknownTool "nope" ["calc"])),
       (prep_messages [("calc", ["add"])] [⟨"user", "utilise nope"⟩]).fst,
       [(prep_messages [("calc", ["add"])] [⟨"user", "utilise nope"⟩]).snd],
       [("nope", "add", [])]⟩ := by
    apply handle_tool_call_error _ _ _ _ _ tcNObj [] "nope" "add" []
      (InvokeError.unknownTool "nope" ["calc"])
    · rw [show call_ollama ((fun _ => BackendResult.ok respC2) 0) = respC2 from rfl]
      exact respC2_extract
    · rfl
    · rfl
  constructor
  · rw [hrw, herr]
    rfl
  · rw [hrw, herr]

/-- Claim C2 (amended): when the dispatch of the first decoded directive fails
for any reason — unknown tool, unknown function, parameter mismatch or a
re-raised execution error — the orchestrator catches the exception and
returns its stringified apology as the reply of the turn: the turn does
not fail, but no diagnostic assistant turn is injected and no second
model call is made (exactly the one already-sent message list is ever
sent). -/
theorem C2_theorem (reg : Registry) (backend : Nat → BackendResult)
    (full : List Msg) (response : String) (caller : List Msg)
    (tc : Json) (rest : List Json) (t f : String) (ps : List (String × Json))
    (e : InvokeError)
    (h1 : extract_tool_calls response = tc :: rest)
    (h2 : dispatchOf tc = some (t, f, ps))
    (h3 : (execute_tool reg t f ps).fst = Except.error e) :
    handle_tool_call reg backend full response caller =
      ⟨apology (invokeErrMsg e), caller, [full], [(t, f, ps)]⟩ :=
  handle_tool_call_error reg backend full response caller tc rest t f ps e h1 h2 h3

/-- Witness for C2 at a concrete input: the unknown-tool directive of
respC2 makes the turn answer with the apology string after the single
model call. -/
theorem C2_witness :
    extract_tool_calls respC2 = tcNObj :: [] ∧
    dispatchOf tcNObj = some ("nope", "add", []) ∧
    (execute_tool calcReg "nope" "add" []).fst =
      Except.error (InvokeError.unknownTool "nope" ["calc"]) ∧
    handle_tool_call calcReg bkPlain [⟨"user", "q"⟩] respC2 [⟨"user", "q"⟩] =
      ⟨apology (invokeErrMsg (InvokeError.unknownTool "nope" ["calc"])),
       [⟨"user", "q"⟩], [[⟨"user", "q"⟩]], [("nope", "add", [])]⟩ :=
  ⟨respC2_extract, rfl, rfl,
   C2_theorem calcReg bkPlain [⟨"user", "q"⟩] respC2 [⟨"user", "q"⟩]
     tcNObj [] "nope" "add" [] (InvokeError.unknownTool "nope" ["calc"])
     respC2_extract rfl rfl⟩

/-!
 ## Claim C6 — undecodable directive content
-/

/-- Claim C6 as stated is false: a parse failure of the first delimited
segment does not make the orchestrator fall back to the raw response —
failing segments are skipped and the next decodable directive is
executed.  Concretely, in resp6 the first segment oops is not JSON, yet
calc.add is dispatched with a=5, b=3 and the second model response is
returned as the reply. -/
theorem C6_counterexample :
    jsonParse (trimChars "oops") = none ∧
    (process_chat calcReg
        (fun n => if n = 0 then BackendResult.ok resp6
                  else BackendResult.ok "Le résultat est 8")
        [⟨"user", "calcule 5 plus 3"⟩] [("calc", ["add"])]).dispatches =
      [("calc", "add", [("a", Json.num 5), ("b", Json.num 3)])] ∧
    (process_chat calcReg
        (fun n => if n = 0 then BackendResult.ok resp6
                  else BackendResult.ok "Le résultat est 8")
        [⟨"user", "calcule 5 plus 3"⟩] [("calc", ["add"])]).reply =
      "Le résultat est 8" := by
  refine ⟨rfl, ?_⟩
  have hrw : process_chat calcReg
      (fun n => if n = 0 then BackendResult.ok resp6
                else BackendResult.ok "Le résultat est 8")
      [⟨"user", "calcule 5 plus 3"⟩] [("calc", ["add"])] =
      handle_tool_call calcReg
        (fun n => if n = 0 then BackendResult.ok resp6
                  else BackendResult.ok "Le résultat est 8")
        (prep_messages [("calc", ["add"])] [⟨"user", "calcule 5 plus 3"⟩]).snd
        (call_ollama ((fun n => if n = 0 then BackendResult.ok resp6
                  else BackendResult.ok "Le résultat est 8") 0))
        (prep_messages [("calc", ["add"])] [⟨"user", "calcule 5 plus 3"⟩]).fst := by
    apply process_chat_toolpath
    rw [show call_ollama ((fun n => if n = 0 then BackendResult.ok resp6
        else BackendResult.ok "Le résultat est 8") 0) = resp6 from rfl, resp6_has]
    rfl
  have hok : handle_tool_call calcReg
      (fun n => if n = 0 then BackendResult.ok resp6
                else BackendResult.ok "Le résultat est 8")
      (prep_messages [("calc", ["add"])] [⟨"user", "calcule 5 plus 3"⟩]).snd
      (call_ollama ((fun n => if n = 0 then BackendResult.ok resp6
                else BackendResult.ok "Le résultat est 8") 0))
      (prep_messages [("calc", ["add"])] [⟨"user", "calcule 5 plus 3"⟩]).fst =
      ⟨call_ollama ((fun n => if n = 0 then BackendResult.ok resp6
                else BackendResult.ok "Le résultat est 8") 1),
       (prep_messages [("calc", ["add"])] [⟨"user", "calcule 5 plus 3"⟩]).fst,
       [(prep_messages [("calc", ["add"])] [⟨"user", "calcule 5 plus 3"⟩]).snd,
        (prep_messages [("calc", ["add"])] [⟨"user", "calcule 5 plus 3"⟩]).snd ++
          [toolResultMsg "calc" "add" (Json.num 8)]],
       [("calc", "add", [("a", Json.num 5), ("b", Json.num 3)])]⟩ := by
    apply handle_tool_call_ok _ _ _ _ _ tc6Obj []
    · rw [show call_ollama ((fun n => if n = 0 then BackendResult.ok resp6
          else BackendResult.ok "Le résultat est 8") 0) = resp6 from rfl]
      exact resp6_extract
    · rfl
    · rfl
  constructor
  · rw [hrw, hok]
  · rw [hrw, hok]
    rfl

/-- Claim C6 (amended): delimited segments that fail to decode are skipped
with the failure only logged; the first segment that does decode is the
one dispatched; only when no delimited segment decodes at all does the
orchestrator treat the raw response text as the final reply with no tool
executed; in every case the turn completes without crashing. -/
theorem C6_theorem (reg : Registry) (backend : Nat → BackendResult)
    (full : List Msg) (response : String) (caller : List Msg) :
    (extract_tool_calls response = [] →
      handle_tool_call reg backend full response caller =
        ⟨response, caller, [full], []⟩) ∧
    (∀ tc rest, extract_tool_calls response = tc :: rest →
      (handle_tool_call reg backend full response caller).dispatches =
        (dispatchOf tc).toList) := by
  constructor
  · exact handle_tool_call_empty reg backend full response caller
  · intro tc rest h
    cases hd : dispatchOf tc with
    | none => rw [handle_tool_call_nodisp _ _ _ _ _ tc rest h hd]; rfl
    | some dsp =>
      obtain ⟨t, f, ps⟩ := dsp
      cases hx : (execute_tool reg t f ps).fst with
      | error e => rw [handle_tool_call_error _ _ _ _ _ tc rest t f ps e h hd hx]; rfl
      | ok v => rw [handle_tool_call_ok _ _ _ _ _ tc rest t f ps v h hd hx]; rfl

/-- Witness for C6 at a concrete input: when the only delimited segment is
not JSON, nothing decodes and the raw response text is the reply with no
dispatch. -/
theorem C6_witness :
    extract_tool_calls respW6 = [] ∧
    handle_tool_call calcReg bkPlain [⟨"user", "q"⟩] respW6 [⟨"user", "q"⟩] =
      ⟨respW6, [⟨"user", "q"⟩], [[⟨"user", "q"⟩]], []⟩ :=
  ⟨respW6_extract,
   (C6_theorem calcReg bkPlain [⟨"user", "q"⟩] respW6 [⟨"user", "q"⟩]).1 respW6_extract⟩

/-!
 ## Claim C3 — model backend failures during a chat turn
-/

/-- Claim C3 as stated is false: a backend failure never surfaces as a typed
failure — _call_ollama catches it and returns an error-message string,
which the websocket chat branch reports with success true and appends to
the conversation history as a normal assistant turn.  Concretely, a
simulated httpx error on the model call produces a successful
chat_response carrying the error text, and the history gains both the
user turn and the error text as an assistant turn. -/
theorem C3_counterexample :
    websocket_handle_message calcReg (fun _ => BackendResult.httpError "timeout simule")
        [] (InMsg.chat (some "Bonjour")) =
      ([OutMsg.chatResponse true (some "Erreur de connexion avec Ollama: timeout simule") none],
       [⟨"user", "Bonjour"⟩,
        ⟨"assistant", "Erreur de connexion avec Ollama: timeout simule"⟩]) := by
  rfl

/-- Claim C3 (amended): every transport failure of the model call — the
timeout and the non-2xx cases are both httpx.HTTPError — is converted by
_call_ollama into the string starting Erreur de connexion avec Ollama,
the chat turn is reported as a success carrying that string, and the
string is appended to the conversation history as an assistant turn. -/
theorem C3_theorem (reg : Registry) (backend : Nat → BackendResult) (hist : List Msg)
    (prompt m : String) (hp : prompt ≠ "")
    (hb : backend 0 = BackendResult.httpError m) :
    websocket_handle_message reg backend hist (InMsg.chat (some prompt)) =
      ([OutMsg.chatResponse true (some ("Erreur de connexion avec Ollama: " ++ m)) none],
       hist ++ [⟨"user", prompt⟩,
                ⟨"assistant", "Erreur de connexion avec Ollama: " ++ m⟩]) := by
  simp only [websocket_handle_message]
  rw [if_neg hp]
  have hr : (process_chat reg backend
      (hist ++ [{ role := "user", content := prompt }]) []).reply =
      "Erreur de connexion avec Ollama: " ++ m := by
    show call_ollama (backend 0) = _
    rw [hb]
    rfl
  rw [hr]
  simp

/-- Witness for C3 at a concrete input: a simulated httpx failure makes the
chat turn succeed with the error string and corrupts the history with it. -/
theorem C3_witness :
    ("Bonjour" : String) ≠ "" ∧
    ((fun _ => BackendResult.httpError "panne") 0 : BackendResult) =
      BackendResult.httpError "panne" ∧
    websocket_handle_message calcReg (fun _ => BackendResult.httpError "panne")
        [⟨"system", "Sois bref."⟩] (InMsg.chat (some "Bonjour")) =
      ([OutMsg.chatResponse true (some ("Erreur de connexion avec Ollama: " ++ "panne")) none],
       [⟨"system", "Sois bref."⟩] ++
         [⟨"user", "Bonjour"⟩,
          ⟨"assistant", "Erreur de connexion avec Ollama: " ++ "panne"⟩]) := by
  refine ⟨by decide, rfl, ?_⟩
  exact C3_theorem calcReg (fun _ => BackendResult.httpError "panne")
    [⟨"system", "Sois bref."⟩] "Bonjour" "panne" (by decide) rfl

/-!
 ## Claim C5 — one reply per inbound websocket message
-/

/-- Claim C5 as stated is false: the websocket endpoint has no branch for
the reset message type, so a reset message gets zero replies and the
turn sequence of the connection is left intact instead of being cleared. -/
theorem C5_counterexample :
    websocket_handle_message calcReg bkPlain [⟨"user", "salut"⟩] InMsg.reset =
      ([], [⟨"user", "salut"⟩]) ∧
    ([⟨"user", "salut"⟩] : List Msg) ≠ [] := by
  exact ⟨rfl, by decide⟩

/-- Claim C5 (amended): execute_tool and list_tools messages each get
exactly one typed reply (execution_result, tools_list), a chat message
gets exactly one chat_response reply when its prompt is present and
non-empty and no reply at all otherwise, and a reset message is not
handled: it gets zero replies and the turn sequence is not cleared. -/
theorem C5_theorem (reg : Registry) (backend : Nat → BackendResult) (hist : List Msg) :
    (∀ t f ps, ∃ success r err,
      (websocket_handle_message reg backend hist (InMsg.executeTool t f ps)).fst =
        [OutMsg.executionResult success r err (some t) (some f)]) ∧
    ((websocket_handle_message reg backend hist InMsg.listTools).fst =
      [OutMsg.toolsList (get_all_tools reg)]) ∧
    (∀ p, p ≠ "" → ∃ r,
      (websocket_handle_message reg backend hist (InMsg.chat (some p))).fst =
        [OutMsg.chatResponse true (some r) none]) ∧
    ((websocket_handle_message reg backend hist (InMsg.chat (some ""))).fst = []) ∧
    ((websocket_handle_message reg backend hist (InMsg.chat none)).fst = []) ∧
    (websocket_handle_message reg backend hist InMsg.reset = ([], hist)) := by
  refine ⟨?_, rfl, ?_, rfl, rfl, rfl⟩
  · intro t f ps
    simp only [websocket_handle_message]
    cases hx : (execute_tool reg t f ps).fst with
    | ok v => exact ⟨true, some v, none, rfl⟩
    | error e => exact ⟨false, none, some (invokeErrMsg e), rfl⟩
  · intro p hp
    simp only [websocket_handle_message]
    rw [if_neg hp]
    exact ⟨_, rfl⟩

/-- Witness for C5 at concrete inputs: each handled message type of the
calc registry produces its single typed reply, and the unhandled reset
produces none while keeping the history. -/
theorem C5_witness :
    (∃ success r err,
      (websocket_handle_message calcReg bkPlain []
        (InMsg.executeTool "calc" "add" [("a", Json.num 5), ("b", Json.num 3)])).fst =
        [OutMsg.executionResult success r err (some "calc") (some "add")]) ∧
    ((websocket_handle_message calcReg bkPlain [] InMsg.listTools).fst =
      [OutMsg.toolsList (get_all_tools calcReg)]) ∧
    ("salut" : String) ≠ "" ∧
    (∃ r, (websocket_handle_message calcReg bkPlain [] (InMsg.chat (some "salut"))).fst =
      [OutMsg.chatResponse true (some r) none]) ∧
    (websocket_handle_message calcReg bkPlain [] InMsg.reset = ([], [])) := by
  refine ⟨?_, ?_, by decide, ?_, ?_⟩
  · exact (C5_theorem calcReg bkPlain []).1 "calc" "add"
      [("a", Json.num 5), ("b", Json.num 3)]
  · exact (C5_theorem calcReg bkPlain []).2.1
  · exact (C5_theorem calcReg bkPlain []).2.2.1 "salut" (by decide)
  · exact (C5_theorem calcReg bkPlain []).2.2.2.2.2
